import Mathlib

/-!
Shallow embedding of the blogicum blog application (django-sprint4):
the visibility predicate, the listing/query assembly, pagination, the
post-detail resolution, comment ordering, and the authorization dispatch
of the mutating views, together with proofs about the specification's
claims concerning them.

Conventions of the embedding:
- a viewer identity is an `Option Nat` (user id), `none` being anonymous;
- timestamps are `Int`;
- the database is explicit lists of rows; foreign keys are the referenced
  row's `id`, except `Post.category`, which is embedded as an
  `Option Category` (the FK has `on_delete=SET_NULL`, so it is either
  null or a real category row);
- Django querysets become Lean lists; `order_by` becomes a sort;
- request handlers become functions from the database, the viewer and the
  URL kwargs to a response (and, for mutating handlers, an updated
  database).
-/

namespace Blogicum

/-- A blog category (blog/models.py, class Category): slug, published flag
and id; the purely presentational columns (title, description, created_at)
play no role in the verified behavior and are elided. -/
structure Category where
  id : Nat
  slug : String
  is_published : Bool
  deriving DecidableEq, Repr

/-- A user row (django.contrib.auth User): id and username. -/
structure User where
  id : Nat
  username : String
  deriving DecidableEq, Repr

/-- A blog post (blog/models.py, class Post). `author` is the author's user
id; `category` is the nullable category reference (SET_NULL on delete);
`text` stands for the editable content fields. The `location` reference and
the image are elided: no verified behavior reads them. -/
structure Post where
  id : Nat
  author : Nat
  category : Option Category
  pub_date : Int
  is_published : Bool
  text : String
  deriving DecidableEq, Repr

/-- A comment (blog/models.py, class Comment). `post` is the owning post's
id (CASCADE on post deletion); `author` the author's user id. -/
structure Comment where
  id : Nat
  post : Nat
  author : Nat
  created_at : Int
  text : String
  deriving DecidableEq, Repr

/-- The relational store. -/
structure DB where
  categories : List Category
  users : List User
  posts : List Post
  comments : List Comment
  deriving DecidableEq, Repr

/-- Insert an element into a list that is ascending on `key`, keeping it
ascending (the building block of the embedding of `order_by`). -/
def insertKey (key : α → Int) (a : α) : List α → List α
  | [] => [a]
  | b :: l => if key a ≤ key b then a :: b :: l else b :: insertKey key a l

/-- Sort a list ascending on `key`; embeds a queryset's `order_by`. -/
def sortByKey (key : α → Int) : List α → List α
  | [] => []
  | a :: l => insertKey key a (sortByKey key l)

/-- The published-post filter of `get_post` (blog/views.py lines 42-47):
`is_published=True, pub_date__lte=timezone.now(), category__is_published=True`.
The last conjunct is a lookup across the nullable `category` FK: in SQL it
compares the joined category's flag, so a post whose category is NULL does
not satisfy it and is filtered out. -/
def publishedFilter (now : Int) (p : Post) : Bool :=
  p.is_published && decide (p.pub_date ≤ now) &&
    (match p.category with
     | none => false
     | some c => c.is_published)

/-- `get_post` (blog/views.py lines 22-51): optionally filter to published
posts, then order by `Post._meta.ordering = ['-pub_date']` (descending
publication date). `select_related` and the `comment_count` annotation do
not change which rows appear or their order, so they are not part of the
list-of-rows semantics. -/
def get_post (now : Int) (posts : List Post) (filter_published : Bool) : List Post :=
  let posts := if filter_published then posts.filter (publishedFilter now) else posts
  sortByKey (fun p => -p.pub_date) posts

/-- The visibility check used by post-detail resolution
(PostDetailView.get_object, blog/views.py lines 127-134): the author sees
their own post unconditionally; anyone else sees it exactly when it passes
the published filter of `get_post`. -/
def isPostVisible (now : Int) (viewer : Option Nat) (p : Post) : Bool :=
  if viewer = some p.author then true else publishedFilter now p

/-- The visibility predicate as the specification words it (spec section
4.1 and section 8): the non-author branch accepts a post with an absent
category. Stated only to be compared against the code's `isPostVisible`. -/
def isPostVisibleSpec (now : Int) (viewer : Option Nat) (p : Post) : Bool :=
  if viewer = some p.author then true
  else
    p.is_published && decide (p.pub_date ≤ now) &&
      (match p.category with
       | none => true
       | some c => c.is_published)

/-- `PostDetailView.get_object` (blog/views.py lines 127-134): load the post
by id (404 when absent, `none` here); return it as-is to its author;
otherwise look it up again inside the published queryset
(`get_object_or_404(get_post(filter_published=True), pk=post.pk)`), which
yields 404 when the post is not published. -/
def getPostDetail (db : DB) (now : Int) (viewer : Option Nat) (post_id : Nat) : Option Post :=
  match db.posts.find? (fun p => p.id == post_id) with
  | none => none
  | some post =>
    if viewer = some post.author then some post
    else (get_post now db.posts true).find? (fun p => p.id == post.id)

/-- The comments attached by `PostDetailView.get_context_data`
(blog/views.py lines 136-143): all comments of the post, explicitly
re-ordered ascending by `created_at`. -/
def detailComments (db : DB) (post_id : Nat) : List Comment :=
  sortByKey (fun c => c.created_at) (db.comments.filter (fun c => c.post == post_id))

/-- The default ordering of comments everywhere else
(Comment.Meta.ordering = ['-created_at'], blog/models.py lines 176-179):
descending by creation time. -/
def commentsDefault (comments : List Comment) : List Comment :=
  sortByKey (fun c => -c.created_at) comments

/-- Modelled from the spec: the page size constant comes from
blog/constants.py, which is not among the provided sources. The spec says
only that listings are split into fixed-size pages, so a representative
positive size is used; no claim depends on the concrete value. -/
def POSTS_PER_PAGE : Nat := 10

/-- Django Paginator.num_pages with default options (orphans = 0,
allow_empty_first_page = True): the ceiling of count / per_page, but at
least 1 so that an empty queryset still has one (empty) first page. -/
def num_pages (total per : Nat) : Nat :=
  max 1 ((total + per - 1) / per)

/-- Decimal digit value of a character, `none` for non-digits. -/
def digitVal? (c : Char) : Option Nat :=
  if c = '0' then some 0
  else if c = '1' then some 1
  else if c = '2' then some 2
  else if c = '3' then some 3
  else if c = '4' then some 4
  else if c = '5' then some 5
  else if c = '6' then some 6
  else if c = '7' then some 7
  else if c = '8' then some 8
  else if c = '9' then some 9
  else none

/-- Read a run of decimal digits, accumulating their value; `none` as soon
as a non-digit appears. -/
def natOfDigits? : List Char → Nat → Option Nat
  | [], acc => some acc
  | c :: cs, acc =>
    match digitVal? c with
    | none => none
    | some d => natOfDigits? cs (acc * 10 + d)

/-- Python's `int(str)` on a page parameter: an optional sign followed by
at least one digit; anything else raises ValueError (`none` here). -/
def str_to_int? (s : String) : Option Int :=
  match s.data with
  | [] => none
  | '-' :: [] => none
  | '-' :: c :: cs => (natOfDigits? (c :: cs) 0).map (fun n => -(n : Int))
  | '+' :: [] => none
  | '+' :: c :: cs => (natOfDigits? (c :: cs) 0).map (fun n => (n : Int))
  | cs => (natOfDigits? cs 0).map (fun n => (n : Int))

/-- Django Paginator.get_page, the forgiving page lookup used by the
module-level helper `paginate_queryset` (blog/views.py lines 54-58): a
missing or non-integer parameter becomes page 1; an integer below 1 or
above the last page becomes the last page. Returns the page number. -/
def get_page (total per : Nat) (param : Option String) : Nat :=
  match param with
  | none => 1
  | some s =>
    match str_to_int? s with
    | none => 1
    | some n =>
      if n < 1 then num_pages total per
      else if (num_pages total per : Int) < n then num_pages total per
      else n.toNat

/-- `paginate_queryset` (blog/views.py lines 54-58):
`Paginator(queryset, posts_per_page).get_page(request.GET.get('page'))`.
Returns the page number together with that page's slice of the queryset.
This helper is defined in views.py but none of the listing views calls it:
they paginate through ListView's own machinery below. -/
def paginate_queryset (queryset : List Post) (pageParam : Option String)
    (posts_per_page : Nat) : Nat × List Post :=
  let number := get_page queryset.length posts_per_page pageParam
  (number, (queryset.drop ((number - 1) * posts_per_page)).take posts_per_page)

/-- Outcome of a paginated listing request: a page (number and object
list) or the not-found error page. -/
inductive PageOutcome where
  | notFound
  | page (number : Nat) (object_list : List Post)
  deriving DecidableEq, Repr

/-- Django ListView pagination (MultipleObjectMixin.paginate_queryset),
which IndexView, CategoryPostsView and ProfileView use via
`paginate_by = POSTS_PER_PAGE`: the page parameter defaults to 1 when
missing or empty; a non-integer parameter other than the literal string
"last" raises Http404; an integer outside [1, num_pages] raises Http404
(`Paginator.page` validates strictly, unlike `get_page`). -/
def listViewPaginate (qs : List Post) (per : Nat) (param : Option String) : PageOutcome :=
  let pageStr :=
    match param with
    | none => "1"
    | some s => if s = "" then "1" else s
  match str_to_int? pageStr with
  | some n =>
    if n < 1 then PageOutcome.notFound
    else if (num_pages qs.length per : Int) < n then PageOutcome.notFound
    else PageOutcome.page n.toNat ((qs.drop ((n.toNat - 1) * per)).take per)
  | none =>
    if pageStr = "last" then
      let n := num_pages qs.length per
      PageOutcome.page n ((qs.drop ((n - 1) * per)).take per)
    else PageOutcome.notFound

/-- IndexView (blog/views.py lines 83-90): the home feed, a ListView over
`get_post()` (published filter on) paginated by POSTS_PER_PAGE. -/
def IndexView (db : DB) (now : Int) (pageParam : Option String) : PageOutcome :=
  listViewPaginate (get_post now db.posts true) POSTS_PER_PAGE pageParam

/-- Outcome of resolving a feed's scope: the (unpaginated) ordered post
list, or the not-found error page. -/
inductive FeedOutcome where
  | notFound
  | feed (posts : List Post)
  deriving DecidableEq, Repr

/-- `CategoryPostsView.get_category` (blog/views.py lines 101-107):
`get_object_or_404(Category, slug=..., is_published=True)`; `none` is the
404 case. -/
def get_category (db : DB) (category_slug : String) : Option Category :=
  db.categories.find? (fun c => c.slug == category_slug && c.is_published)

/-- `CategoryPostsView.get_queryset` (blog/views.py lines 109-111): resolve
the category (404 on an unknown or unpublished slug), then
`get_post(posts=category.posts.all())` — the category's posts with the
published filter on. -/
def CategoryPostsView (db : DB) (now : Int) (category_slug : String) : FeedOutcome :=
  match get_category db category_slug with
  | none => FeedOutcome.notFound
  | some category =>
    FeedOutcome.feed
      (get_post now
        (db.posts.filter (fun p => p.category.any (fun c => c.id == category.id))) true)

/-- `ProfileView.get_author` (blog/views.py lines 272-277):
`get_object_or_404(User, username=...)`; `none` is the 404 case. -/
def get_author (db : DB) (username : String) : Option User :=
  db.users.find? (fun u => u.username == username)

/-- `ProfileView.get_queryset` (blog/views.py lines 279-284): resolve the
profile's user (404 on an unknown username), then
`get_post(posts=author.posts.all(), filter_published=request.user != author)`
— the author's posts, visibility-filtered exactly when the viewer is not
the profile owner. -/
def ProfileView (db : DB) (now : Int) (viewer : Option Nat) (username : String) : FeedOutcome :=
  match get_author db username with
  | none => FeedOutcome.notFound
  | some author =>
    FeedOutcome.feed
      (get_post now (db.posts.filter (fun p => p.author == author.id))
        (viewer != some author.id))

/-- A request handler's response, as far as the claims observe it. -/
inductive Response where
  | notFound
  | loginRedirect
  | postDetailRedirect (post_id : Nat)
  | profileRedirect (username : String)
  | indexRedirect
  | rendered
  deriving DecidableEq, Repr

/-- CreatePostView dispatch (blog/views.py lines 146-162): guarded by
LoginRequiredMixin, so an anonymous viewer is redirected to login;
otherwise the create page proceeds. -/
def CreatePostView (viewer : Option Nat) : Response :=
  match viewer with
  | none => Response.loginRedirect
  | some _ => Response.rendered

/-- EditPostView dispatch (blog/views.py lines 165-182) with
PostAuthorRequiredMixin (lines 61-69): the post is loaded by id (404 when
absent); when the viewer is not its author — which includes every
anonymous viewer, since AnonymousUser equals no author —
`handle_no_permission` redirects to that post's detail page and nothing is
saved; the author's edit saves the form and redirects to the detail page
of the post_id URL kwarg. `newText` stands for the submitted content. -/
def EditPostView (db : DB) (viewer : Option Nat) (post_id : Nat) (newText : String) :
    Response × DB :=
  match db.posts.find? (fun p => p.id == post_id) with
  | none => (Response.notFound, db)
  | some post =>
    if viewer = some post.author then
      (Response.postDetailRedirect post_id,
       { db with
           posts := db.posts.map (fun p => if p.id == post_id then { p with text := newText } else p) })
    else (Response.postDetailRedirect post.id, db)

/-- DeletePostView dispatch (blog/views.py lines 185-199) with
PostAuthorRequiredMixin: 404 when the post is absent; a non-author
(anonymous included) is redirected to the post's detail page with nothing
deleted; the author's delete removes the post (comments cascade,
Comment.post has on_delete=CASCADE) and redirects to the index. -/
def DeletePostView (db : DB) (viewer : Option Nat) (post_id : Nat) : Response × DB :=
  match db.posts.find? (fun p => p.id == post_id) with
  | none => (Response.notFound, db)
  | some post =>
    if viewer = some post.author then
      (Response.indexRedirect,
       { db with
           posts := db.posts.filter (fun p => !(p.id == post_id)),
           comments := db.comments.filter (fun c => !(c.post == post_id)) })
    else (Response.postDetailRedirect post.id, db)

/-- EditCommentView dispatch (blog/views.py lines 202-214) with
CommentAuthorRequiredMixin (lines 72-80): the comment is loaded by the
comment_id kwarg alone (404 when absent); a non-author (anonymous
included) is redirected to the comment's parent post's detail page with
the comment unchanged; the author's edit saves the new text and redirects
to the detail page of the post_id URL kwarg. -/
def EditCommentView (db : DB) (viewer : Option Nat) (post_id comment_id : Nat)
    (newText : String) : Response × DB :=
  match db.comments.find? (fun c => c.id == comment_id) with
  | none => (Response.notFound, db)
  | some comment =>
    if viewer = some comment.author then
      (Response.postDetailRedirect post_id,
       { db with
           comments := db.comments.map
             (fun c => if c.id == comment_id then { c with text := newText } else c) })
    else (Response.postDetailRedirect comment.post, db)

/-- DeleteCommentView dispatch (blog/views.py lines 217-233) with
CommentAuthorRequiredMixin: 404 when the comment is absent; a non-author
(anonymous included) is redirected to the parent post's detail page with
the comment kept; the author's delete removes the comment and — per
`get_success_url`, which passes `self.kwargs[self.pk_url_kwarg]`, i.e. the
comment_id kwarg, to the post_detail URL — redirects to the post-detail
URL built from the comment's id. -/
def DeleteCommentView (db : DB) (viewer : Option Nat) (post_id comment_id : Nat) :
    Response × DB :=
  match db.comments.find? (fun c => c.id == comment_id) with
  | none => (Response.notFound, db)
  | some comment =>
    if viewer = some comment.author then
      (Response.postDetailRedirect comment_id,
       { db with comments := db.comments.filter (fun c => !(c.id == comment_id)) })
    else (Response.postDetailRedirect comment.post, db)

/-- AddCommentView dispatch (blog/views.py lines 236-261): guarded by
LoginRequiredMixin (anonymous goes to login); `form_valid` sets the
comment's author to the viewer and its post to
`get_object_or_404(Post, id=post_id)` — no visibility check of any kind —
then redirects to that post's detail page. `newId` and `now` model the
stored row's autogenerated id and creation timestamp. -/
def AddCommentView (db : DB) (viewer : Option Nat) (post_id : Nat) (text : String)
    (newId : Nat) (now : Int) : Response × DB :=
  match viewer with
  | none => (Response.loginRedirect, db)
  | some uid =>
    match db.posts.find? (fun p => p.id == post_id) with
    | none => (Response.notFound, db)
    | some post =>
      (Response.postDetailRedirect post_id,
       { db with
           comments := db.comments ++
             [{ id := newId, post := post.id, author := uid, created_at := now, text := text }] })

/-! Generic lemmas about the sorting embedding of `order_by`. -/

theorem mem_insertKey (key : α → Int) (a x : α) (l : List α) :
    x ∈ insertKey key a l ↔ x = a ∨ x ∈ l := by
  induction l with
  | nil => simp [insertKey]
  | cons b l ih =>
    simp only [insertKey]
    split
    · simp [List.mem_cons]
    · simp only [List.mem_cons, ih]
      tauto

theorem mem_sortByKey (key : α → Int) (x : α) (l : List α) :
    x ∈ sortByKey key l ↔ x ∈ l := by
  induction l with
  | nil => simp [sortByKey]
  | cons a l ih =>
    simp only [sortByKey, mem_insertKey, ih, List.mem_cons]

theorem sorted_insertKey (key : α → Int) (a : α) (l : List α)
    (h : List.Sorted (fun x y => key x ≤ key y) l) :
    List.Sorted (fun x y => key x ≤ key y) (insertKey key a l) := by
  induction l with
  | nil => simp [insertKey]
  | cons b l ih =>
    simp only [insertKey]
    rcases List.pairwise_cons.mp h with ⟨hb, hl⟩
    split
    · rename_i hab
      exact List.Pairwise.cons
        (fun x hx => by
          rcases List.mem_cons.mp hx with rfl | hx
          · exact hab
          · exact le_trans hab (hb x hx))
        (List.Pairwise.cons hb hl)
    · rename_i hab
      refine List.Pairwise.cons ?_ (ih hl)
      intro x hx
      rcases (mem_insertKey key a x l).mp hx with rfl | hx
      · exact le_of_lt (lt_of_not_le hab)
      · exact hb x hx

theorem sorted_sortByKey (key : α → Int) (l : List α) :
    List.Sorted (fun x y => key x ≤ key y) (sortByKey key l) := by
  induction l with
  | nil => simp [sortByKey]
  | cons a l ih => exact sorted_insertKey key a (sortByKey key l) ih

/-- Membership in a `get_post` result: the published-filtered, ordered
queryset holds exactly the source rows passing the filter. -/
theorem mem_get_post (now : Int) (posts : List Post) (fp : Bool) (p : Post) :
    p ∈ get_post now posts fp ↔
      p ∈ posts ∧ (fp = true → publishedFilter now p = true) := by
  unfold get_post
  cases fp with
  | false => simp [mem_sortByKey]
  | true => simp [mem_sortByKey, List.mem_filter]

/-- Looking a post up by primary key inside the published queryset: with
unique post ids, the lookup finds exactly the post itself when it passes
the published filter, and nothing otherwise. This is the semantics of
`get_object_or_404(get_post(filter_published=True), pk=post.pk)`. -/
theorem find_in_get_post (db : DB) (now : Int) (post : Post)
    (hmem : post ∈ db.posts)
    (hU : ∀ p ∈ db.posts, ∀ q ∈ db.posts, p.id = q.id → p = q) :
    (get_post now db.posts true).find? (fun p => p.id == post.id) =
      if publishedFilter now post then some post else none := by
  by_cases hf : publishedFilter now post = true
  · rw [if_pos hf]
    have hmem' : post ∈ get_post now db.posts true :=
      (mem_get_post now db.posts true post).mpr ⟨hmem, fun _ => hf⟩
    rcases hfind :
        (get_post now db.posts true).find? (fun p => p.id == post.id) with _ | q
    · exfalso
      have := List.find?_eq_none.mp hfind post hmem'
      simp at this
    · have hq : q ∈ get_post now db.posts true := List.mem_of_find?_eq_some hfind
      have hqid : q.id = post.id := by
        have := List.find?_some hfind
        simpa using this
      have hq' : q ∈ db.posts := ((mem_get_post now db.posts true q).mp hq).1
      rw [hfind, hU q hq' post hmem hqid]
  · rw [if_neg hf]
    apply List.find?_eq_none.mpr
    intro q hq hid
    have hq' := (mem_get_post now db.posts true q).mp hq
    have hqid : q.id = post.id := by simpa using hid
    have : q = post := hU q hq'.1 post hmem hqid
    subst this
    exact hf (hq'.2 rfl)

/-! Concrete rows used by witnesses and counterexamples. -/

/-- A published category. -/
def exCatPub : Category := { id := 1, slug := "tech", is_published := true }

/-- An unpublished category. -/
def exCatUnpub : Category := { id := 2, slug := "old", is_published := false }

/-- User 1, alice. -/
def exUserA : User := { id := 1, username := "alice" }

/-- User 2, bob. -/
def exUserB : User := { id := 2, username := "bob" }

/-- A published, past-dated post of alice with no category. -/
def exPostNoCat : Post :=
  { id := 1, author := 1, category := none, pub_date := 0, is_published := true, text := "p1" }

/-- A fully published post of alice in the published category. -/
def exPostPub : Post :=
  { id := 2, author := 1, category := some exCatPub, pub_date := 0, is_published := true,
    text := "p2" }

/-- An unpublished post of alice in the published category. -/
def exPostUnpub : Post :=
  { id := 3, author := 1, category := some exCatPub, pub_date := 0, is_published := false,
    text := "p3" }

/-- A comment by alice on post 2. -/
def exComment1 : Comment := { id := 5, post := 2, author := 1, created_at := 0, text := "c1" }

/-- A comment by bob on post 2; note its id (6) differs from its post (2). -/
def exComment2 : Comment := { id := 6, post := 2, author := 2, created_at := 1, text := "c2" }

/-- The example database. -/
def exDb : DB :=
  { categories := [exCatPub, exCatUnpub],
    users := [exUserA, exUserB],
    posts := [exPostNoCat, exPostPub, exPostUnpub],
    comments := [exComment1, exComment2] }

/-! Claim C1. -/

/-- Claim C1, counterexample: `exPostNoCat` is published, past-dated and has
no category, and viewer 2 is not its author, yet the code's visibility
check rejects it while the spec's predicate accepts it. The claim's
"p has no category OR p's category is published" disjunct does not hold of
the code: `category__is_published=True` filters out NULL categories. -/
theorem C1_counterexample :
    exPostNoCat.is_published = true ∧ exPostNoCat.pub_date ≤ 0 ∧
    exPostNoCat.category = none ∧ (2 : Nat) ≠ exPostNoCat.author ∧
    isPostVisible 0 (some 2) exPostNoCat = false ∧
    isPostVisibleSpec 0 (some 2) exPostNoCat = true := by decide

/-- Claim C1 (amended): for every post p and viewer v, the visibility check
used by detail resolution (and whose non-author branch is the listings'
published filter) is true if v is p's author, and otherwise true exactly
when p.is_published is true AND p.pub_date is at or before the current
time AND p HAS a category that is published; in particular a published,
past-dated post with no category is NOT visible to non-author viewers. -/
theorem C1_visibility (now : Int) (viewer : Option Nat) (p : Post) :
    isPostVisible now viewer p = true ↔
      (viewer = some p.author ∨
        (p.is_published = true ∧ p.pub_date ≤ now ∧
          ∃ c, p.category = some c ∧ c.is_published = true)) := by
  unfold isPostVisible publishedFilter
  by_cases hv : viewer = some p.author
  · simp [hv]
  · rw [if_neg hv]
    cases hc : p.category with
    | none => simp [hc, hv]
    | some c =>
      simp [hc, hv, Bool.and_eq_true, decide_eq_true_eq, and_assoc]

/-- Claim C1, witness: a fully published post in a published category is
visible to a non-author viewer. -/
theorem C1_visibility_witness : isPostVisible 10 (some 2) exPostPub = true := by
  have h := C1_visibility 10 (some 2) exPostPub
  exact h.mpr (Or.inr ⟨rfl, by decide, exCatPub, rfl, rfl⟩)

/-! Claim C5. -/

/-- Claim C5: for every post-detail request, with unique post ids: if no
post with the given id exists the result is NotFound (`none`); if the
viewer is the post's author the post is returned in any state; otherwise
the post is returned exactly when it satisfies the published-visibility
predicate, and the result is NotFound when it does not. -/
theorem C5_post_detail (db : DB) (now : Int) (viewer : Option Nat) (post_id : Nat)
    (hU : ∀ p ∈ db.posts, ∀ q ∈ db.posts, p.id = q.id → p = q) :
    (db.posts.find? (fun p => p.id == post_id) = none →
       getPostDetail db now viewer post_id = none) ∧
    (∀ post, db.posts.find? (fun p => p.id == post_id) = some post →
       (viewer = some post.author → getPostDetail db now viewer post_id = some post) ∧
       (viewer ≠ some post.author →
          getPostDetail db now viewer post_id =
            if publishedFilter now post then some post else none)) := by
  constructor
  · intro h
    unfold getPostDetail
    rw [h]
  · intro post h
    have hmem : post ∈ db.posts := List.mem_of_find?_eq_some h
    constructor
    · intro hv
      unfold getPostDetail
      rw [h]
      dsimp only
      rw [if_pos hv]
    · intro hv
      unfold getPostDetail
      rw [h]
      dsimp only
      rw [if_neg hv]
      exact find_in_get_post db now post hmem hU

/-- Claim C5, witness: in the example database (unique ids), an anonymous
viewer requesting the unpublished post 3 gets NotFound (Scenario A), while
its author (user 1) gets the post. -/
theorem C5_post_detail_witness :
    getPostDetail exDb 10 none 3 = none ∧
    getPostDetail exDb 10 (some 1) 3 = some exPostUnpub := by
  have h := C5_post_detail exDb 10 none 3 (by decide)
  have h2 := C5_post_detail exDb 10 (some 1) 3 (by decide)
  constructor
  · have hres := (h.2 exPostUnpub (by decide)).2 (by decide)
    rw [hres]
    decide
  · exact (h2.2 exPostUnpub (by decide)).1 (by decide)

/-! Claim C7. -/

/-- Claim C7: for every post-detail view, the attached comments are all the
comments of that post ordered ascending by creation time, even though the
Comment entity's default listing order elsewhere is created_at
descending. -/
theorem C7_comment_ordering (db : DB) (post_id : Nat) :
    List.Sorted (fun a b : Comment => a.created_at ≤ b.created_at)
      (detailComments db post_id) ∧
    (∀ c, c ∈ detailComments db post_id ↔ c ∈ db.comments ∧ c.post = post_id) ∧
    List.Sorted (fun a b : Comment => b.created_at ≤ a.created_at)
      (commentsDefault db.comments) := by
  refine ⟨sorted_sortByKey _ _, ?_, ?_⟩
  · intro c
    unfold detailComments
    simp [mem_sortByKey, List.mem_filter]
  · have h := sorted_sortByKey (fun c : Comment => -c.created_at) db.comments
    exact h.imp (fun hab => by omega)

/-- Claim C7, witness: in the example database, post 2's detail comments
are ascending by creation time and contain exactly its comments. -/
theorem C7_comment_ordering_witness :
    List.Sorted (fun a b : Comment => a.created_at ≤ b.created_at)
      (detailComments exDb 2) ∧
    (exComment1 ∈ detailComments exDb 2 ↔
       exComment1 ∈ exDb.comments ∧ exComment1.post = 2) := by
  have h := C7_comment_ordering exDb 2
  exact ⟨h.1, h.2.1 exComment1⟩

/-! Claim C4. -/

/-- Claim C4: a category-feed request whose slug names a nonexistent or
unpublished category is NotFound, and a profile-feed request whose
username names a nonexistent user is NotFound — never an empty page;
otherwise the feed draws exactly from the posts of that category
(published-filtered, as all listings are) or of that author
(published-filtered unless the viewer is the owner). -/
theorem C4_scope_resolution (db : DB) (now : Int) (viewer : Option Nat)
    (category_slug username : String) :
    (CategoryPostsView db now category_slug = FeedOutcome.notFound ↔
       ∀ c ∈ db.categories, ¬(c.slug = category_slug ∧ c.is_published = true)) ∧
    (∀ cat, get_category db category_slug = some cat →
       ∃ l, CategoryPostsView db now category_slug = FeedOutcome.feed l ∧
         ∀ p, p ∈ l ↔
           p ∈ db.posts ∧ (∃ c, p.category = some c ∧ c.id = cat.id) ∧
             publishedFilter now p = true) ∧
    (ProfileView db now viewer username = FeedOutcome.notFound ↔
       ∀ u ∈ db.users, u.username ≠ username) ∧
    (∀ author, get_author db username = some author →
       ∃ l, ProfileView db now viewer username = FeedOutcome.feed l ∧
         ∀ p, p ∈ l ↔
           p ∈ db.posts ∧ p.author = author.id ∧
             (viewer ≠ some author.id → publishedFilter now p = true)) := by
  refine ⟨?_, ?_, ?_, ?_⟩
  · unfold CategoryPostsView
    cases hgc : get_category db category_slug with
    | none =>
      constructor
      · intro _ c hc hcc
        have := List.find?_eq_none.mp hgc c hc
        simp [hcc.1, hcc.2] at this
      · intro _
        rfl
    | some cat =>
      constructor
      · intro h
        cases h
      · intro hall
        exfalso
        have hmem : cat ∈ db.categories := List.mem_of_find?_eq_some hgc
        have hp := List.find?_some hgc
        simp only [Bool.and_eq_true, beq_iff_eq] at hp
        exact hall cat hmem ⟨hp.1, hp.2⟩
  · intro cat hgc
    unfold CategoryPostsView
    rw [hgc]
    refine ⟨_, rfl, ?_⟩
    intro p
    rw [mem_get_post]
    constructor
    · rintro ⟨hpf, hpub⟩
      rcases List.mem_filter.mp hpf with ⟨hp, hcatm⟩
      refine ⟨hp, ?_, hpub rfl⟩
      cases hpc : p.category with
      | none => simp [hpc, Option.any] at hcatm
      | some c =>
        refine ⟨c, rfl, ?_⟩
        simp [hpc, Option.any] at hcatm
        exact hcatm
    · rintro ⟨hp, ⟨c, hpc, hcid⟩, hpub⟩
      refine ⟨List.mem_filter.mpr ⟨hp, ?_⟩, fun _ => hpub⟩
      simp [hpc, Option.any, hcid]
  · unfold ProfileView
    cases hga : get_author db username with
    | none =>
      constructor
      · intro _ u hu huu
        have := List.find?_eq_none.mp hga u hu
        simp [huu] at this
      · intro _
        rfl
    | some author =>
      constructor
      · intro h
        cases h
      · intro hall
        exfalso
        have hmem : author ∈ db.users := List.mem_of_find?_eq_some hga
        have hp := List.find?_some hga
        simp only [beq_iff_eq] at hp
        exact hall author hmem hp
  · intro author hga
    unfold ProfileView
    rw [hga]
    refine ⟨_, rfl, ?_⟩
    intro p
    rw [mem_get_post]
    constructor
    · rintro ⟨hpf, hpub⟩
      rcases List.mem_filter.mp hpf with ⟨hp, ha⟩
      refine ⟨hp, by simpa using ha, ?_⟩
      intro hv
      exact hpub (by simpa [bne_iff_ne] using hv)
    · rintro ⟨hp, ha, hpub⟩
      refine ⟨List.mem_filter.mpr ⟨hp, by simpa using ha⟩, ?_⟩
      intro hb
      exact hpub (by simpa [bne_iff_ne] using hb)

/-- Claim C4, witness: an unknown slug and an unknown username give
NotFound, while the "tech" category feed exists and contains exactly the
published tech posts, and alice's profile feed (viewed by bob) exists. -/
theorem C4_scope_resolution_witness :
    CategoryPostsView exDb 10 "nope" = FeedOutcome.notFound ∧
    ProfileView exDb 10 (some 2) "nobody" = FeedOutcome.notFound ∧
    (∃ l, CategoryPostsView exDb 10 "tech" = FeedOutcome.feed l ∧
       ∀ p, p ∈ l ↔
         p ∈ exDb.posts ∧ (∃ c, p.category = some c ∧ c.id = exCatPub.id) ∧
           publishedFilter 10 p = true) := by
  have h := C4_scope_resolution exDb 10 (some 2) "nope" "nobody"
  have h2 := C4_scope_resolution exDb 10 (some 2) "tech" "alice"
  exact ⟨h.1.mpr (by decide), h.2.2.1.mpr (by decide),
         h2.2.1 exCatPub (by decide)⟩

/-! Claim C6. -/

/-- Claim C6: when the viewer is the profile's owner, visibility filtering
is skipped entirely — the feed holds every post of that author, unpublished,
future-dated or with unpublished category included; for every other viewer
the feed holds exactly the author's posts satisfying the full non-author
published-visibility predicate. -/
theorem C6_profile_visibility (db : DB) (now : Int) (username : String) (author : User)
    (hu : get_author db username = some author) :
    (∃ l, ProfileView db now (some author.id) username = FeedOutcome.feed l ∧
       ∀ p, p ∈ l ↔ p ∈ db.posts ∧ p.author = author.id) ∧
    (∀ viewer, viewer ≠ some author.id →
       ∃ l, ProfileView db now viewer username = FeedOutcome.feed l ∧
         ∀ p, p ∈ l ↔
           p ∈ db.posts ∧ p.author = author.id ∧ publishedFilter now p = true) := by
  constructor
  · unfold ProfileView
    rw [hu]
    refine ⟨_, rfl, ?_⟩
    intro p
    rw [mem_get_post]
    have hb : (some author.id != some author.id) = false := by simp
    rw [hb]
    constructor
    · rintro ⟨hpf, _⟩
      rcases List.mem_filter.mp hpf with ⟨hp, ha⟩
      exact ⟨hp, by simpa using ha⟩
    · rintro ⟨hp, ha⟩
      exact ⟨List.mem_filter.mpr ⟨hp, by simpa using ha⟩, by simp⟩
  · intro viewer hv
    unfold ProfileView
    rw [hu]
    refine ⟨_, rfl, ?_⟩
    intro p
    rw [mem_get_post]
    have hb : (viewer != some author.id) = true := by simpa [bne_iff_ne] using hv
    rw [hb]
    constructor
    · rintro ⟨hpf, hpub⟩
      rcases List.mem_filter.mp hpf with ⟨hp, ha⟩
      exact ⟨hp, by simpa using ha, hpub rfl⟩
    · rintro ⟨hp, ha, hpub⟩
      exact ⟨List.mem_filter.mpr ⟨hp, by simpa using ha⟩, fun _ => hpub⟩

/-- Claim C6, witness: alice (user 1) sees all three of her posts —
including the unpublished one and the one with no category — in her own
profile feed, while bob (user 2) sees only the fully published one. -/
theorem C6_profile_visibility_witness :
    (∃ l, ProfileView exDb 10 (some exUserA.id) "alice" = FeedOutcome.feed l ∧
       ∀ p, p ∈ l ↔ p ∈ exDb.posts ∧ p.author = exUserA.id) ∧
    (∃ l, ProfileView exDb 10 (some 2) "alice" = FeedOutcome.feed l ∧
       ∀ p, p ∈ l ↔
         p ∈ exDb.posts ∧ p.author = exUserA.id ∧ publishedFilter 10 p = true) := by
  have h := C6_profile_visibility exDb 10 "alice" exUserA (by decide)
  exact ⟨h.1, h.2 (some 2) (by decide)⟩

/-! Claim C3. -/

/-- Claim C3, counterexample: an anonymous viewer attempting to edit
existing post 1 (a mutating action) is redirected to that post's detail
page, not to a login entry point. -/
theorem C3_counterexample :
    (EditPostView exDb none 1 "x").1 = Response.postDetailRedirect 1 ∧
    (EditPostView exDb none 1 "x").1 ≠ Response.loginRedirect := by decide

/-- Claim C3 (amended): an anonymous viewer's create actions (create post,
add comment) redirect to login, but an anonymous viewer's edit or delete
of an existing post or comment redirects to the owning post's detail page
instead — the author mixins, lacking LoginRequiredMixin, treat anonymous
like any non-author. -/
theorem C3_anonymous_actions (db : DB) (post_id comment_id : Nat) (t : String)
    (nid : Nat) (now : Int) :
    CreatePostView none = Response.loginRedirect ∧
    (AddCommentView db none post_id t nid now).1 = Response.loginRedirect ∧
    (∀ p, db.posts.find? (fun q => q.id == post_id) = some p →
       (EditPostView db none post_id t).1 = Response.postDetailRedirect p.id ∧
       (DeletePostView db none post_id).1 = Response.postDetailRedirect p.id) ∧
    (∀ c, db.comments.find? (fun x => x.id == comment_id) = some c →
       (EditCommentView db none post_id comment_id t).1 =
         Response.postDetailRedirect c.post ∧
       (DeleteCommentView db none post_id comment_id).1 =
         Response.postDetailRedirect c.post) := by
  refine ⟨rfl, rfl, ?_, ?_⟩
  · intro p hp
    constructor
    · unfold EditPostView
      rw [hp]
      dsimp only
      rw [if_neg (by simp)]
    · unfold DeletePostView
      rw [hp]
      dsimp only
      rw [if_neg (by simp)]
  · intro c hc
    constructor
    · unfold EditCommentView
      rw [hc]
      dsimp only
      rw [if_neg (by simp)]
    · unfold DeleteCommentView
      rw [hc]
      dsimp only
      rw [if_neg (by simp)]

/-- Claim C3, witness: concrete anonymous requests — create and
add-comment go to login; edit of post 1 and delete of comment 5 go to the
owning post's detail page. -/
theorem C3_anonymous_actions_witness :
    CreatePostView none = Response.loginRedirect ∧
    (AddCommentView exDb none 2 "hi" 9 10).1 = Response.loginRedirect ∧
    (EditPostView exDb none 1 "x").1 = Response.postDetailRedirect exPostNoCat.id ∧
    (DeleteCommentView exDb none 2 5).1 = Response.postDetailRedirect exComment1.post := by
  have h := C3_anonymous_actions exDb 1 5 "x" 9 10
  have h2 := C3_anonymous_actions exDb 2 5 "hi" 9 10
  exact ⟨h.1, h2.2.1, (h.2.2.1 exPostNoCat (by decide)).1,
         (h.2.2.2 exComment1 (by decide)).2⟩

/-! Claim C8. -/

/-- Claim C8: a viewer who is not the author of an existing post or comment
and attempts to edit or delete it is redirected to the detail page of the
post owning the entity (the post itself, or the comment's parent post),
and the database is left unchanged. -/
theorem C8_soft_denial (db : DB) (viewer : Option Nat) (post_id comment_id : Nat)
    (t : String) :
    (∀ p, db.posts.find? (fun q => q.id == post_id) = some p →
       viewer ≠ some p.author →
       EditPostView db viewer post_id t = (Response.postDetailRedirect p.id, db) ∧
       DeletePostView db viewer post_id = (Response.postDetailRedirect p.id, db)) ∧
    (∀ c, db.comments.find? (fun x => x.id == comment_id) = some c →
       viewer ≠ some c.author →
       EditCommentView db viewer post_id comment_id t =
         (Response.postDetailRedirect c.post, db) ∧
       DeleteCommentView db viewer post_id comment_id =
         (Response.postDetailRedirect c.post, db)) := by
  constructor
  · intro p hp hv
    constructor
    · unfold EditPostView
      rw [hp]
      dsimp only
      rw [if_neg hv]
    · unfold DeletePostView
      rw [hp]
      dsimp only
      rw [if_neg hv]
  · intro c hc hv
    constructor
    · unfold EditCommentView
      rw [hc]
      dsimp only
      rw [if_neg hv]
    · unfold DeleteCommentView
      rw [hc]
      dsimp only
      rw [if_neg hv]

/-- Claim C8, witness: bob (user 2) editing alice's post 1 is redirected to
post 1's detail page with the database untouched; bob deleting alice's
comment 5 is redirected to its parent post 2's detail page with the
database untouched (Scenario C). -/
theorem C8_soft_denial_witness :
    EditPostView exDb (some 2) 1 "x" = (Response.postDetailRedirect exPostNoCat.id, exDb) ∧
    DeleteCommentView exDb (some 2) 2 5 =
      (Response.postDetailRedirect exComment1.post, exDb) := by
  have h := C8_soft_denial exDb (some 2) 1 5 "x"
  have h2 := C8_soft_denial exDb (some 2) 2 5 "x"
  exact ⟨(h.1 exPostNoCat (by decide) (by decide)).1,
         (h2.2 exComment1 (by decide) (by decide)).2⟩

/-! Claim C9. -/

/-- Claim C9: after a successful comment deletion the redirect target is
the post-detail URL built from the deleted comment's id (the view passes
the comment_id kwarg to the post_detail route), whereas a successful
comment edit redirects to the post-detail URL built from the request's
post_id kwarg. -/
theorem C9_comment_success_urls (db : DB) (uid post_id comment_id : Nat) (t : String) :
    ∀ c, db.comments.find? (fun x => x.id == comment_id) = some c → uid = c.author →
      (DeleteCommentView db (some uid) post_id comment_id).1 =
        Response.postDetailRedirect comment_id ∧
      (EditCommentView db (some uid) post_id comment_id t).1 =
        Response.postDetailRedirect post_id := by
  intro c hc huid
  constructor
  · unfold DeleteCommentView
    rw [hc]
    dsimp only
    rw [if_pos (by rw [huid])]
  · unfold EditCommentView
    rw [hc]
    dsimp only
    rw [if_pos (by rw [huid])]

/-- Claim C9, witness: bob deletes his own comment 6 (on post 2) and is
redirected to the post-detail URL for id 6 — the comment's id, which is
not its parent post's id (2); editing it instead redirects to the
post-detail URL for the request's post id 2. -/
theorem C9_comment_success_urls_witness :
    (DeleteCommentView exDb (some 2) 2 6).1 = Response.postDetailRedirect 6 ∧
    (EditCommentView exDb (some 2) 2 6 "y").1 = Response.postDetailRedirect 2 ∧
    exComment2.post ≠ 6 := by
  have h := C9_comment_success_urls exDb 2 2 6 "y" exComment2 (by decide) (by decide)
  exact ⟨h.1, h.2, by decide⟩

/-! Claim C10. -/

/-- Claim C10: for an authenticated viewer, adding a comment to an existing
post succeeds with comment.author set to the viewer and comment.post set
to that post, with no visibility condition whatsoever on the post; a
nonexistent post id yields NotFound with the database unchanged. -/
theorem C10_add_comment (db : DB) (uid post_id : Nat) (t : String) (nid : Nat)
    (now : Int) :
    (db.posts.find? (fun p => p.id == post_id) = none →
       AddCommentView db (some uid) post_id t nid now = (Response.notFound, db)) ∧
    (∀ post, db.posts.find? (fun p => p.id == post_id) = some post →
       AddCommentView db (some uid) post_id t nid now =
         (Response.postDetailRedirect post_id,
          { db with
              comments := db.comments ++
                [{ id := nid, post := post.id, author := uid, created_at := now,
                   text := t }] })) := by
  constructor
  · intro h
    unfold AddCommentView
    rw [h]
  · intro post h
    unfold AddCommentView
    rw [h]

/-- Claim C10, witness: bob comments on post 3, which is unpublished and
not visible to him, and the comment is still stored with author bob and
post 3, the response redirecting to post 3's detail URL. -/
theorem C10_add_comment_witness :
    publishedFilter 10 exPostUnpub = false ∧
    isPostVisible 10 (some 2) exPostUnpub = false ∧
    AddCommentView exDb (some 2) 3 "hi" 7 10 =
      (Response.postDetailRedirect 3,
       { exDb with
           comments := exDb.comments ++
             [{ id := 7, post := 3, author := 2, created_at := 10, text := "hi" }] }) := by
  have h := (C10_add_comment exDb 2 3 "hi" 7 10).2 exPostUnpub (by decide)
  exact ⟨by decide, by decide, h⟩

/-! Claim C2. -/

/-- Claim C2, counterexample: the home feed is nonempty, yet requesting
page 0 of it yields the not-found error page rather than a clamped valid
page — the listing views paginate through ListView, not through the
module-level clamping helper. -/
theorem C2_counterexample :
    IndexView exDb 10 (some "0") = PageOutcome.notFound ∧
    get_post 10 exDb.posts true ≠ [] := by decide

/-- Claim C2 (amended): the module-level helper `paginate_queryset` does
clamp — its page number always lands in [1, num_pages], with non-numeric
parameters going to the first page and out-of-range numerics to the last —
but that helper is unused; the listings paginate via ListView, which
yields NotFound for a numeric page parameter below 1 or beyond the last
page and for a non-numeric parameter other than "last". -/
theorem C2_pagination (qs : List Post) (per : Nat) (param : Option String)
    (s : String) (n : Int) :
    (1 ≤ (paginate_queryset qs param per).1 ∧
       (paginate_queryset qs param per).1 ≤ num_pages qs.length per) ∧
    (s ≠ "" → str_to_int? s = some n →
       (n < 1 ∨ (num_pages qs.length per : Int) < n) →
       listViewPaginate qs per (some s) = PageOutcome.notFound) ∧
    (s ≠ "" → s ≠ "last" → str_to_int? s = none →
       listViewPaginate qs per (some s) = PageOutcome.notFound) := by
  refine ⟨?_, ?_, ?_⟩
  · have hnp : 1 ≤ num_pages qs.length per := le_max_left 1 _
    unfold paginate_queryset get_page
    cases param with
    | none => exact ⟨le_refl 1, hnp⟩
    | some s' =>
      dsimp only
      cases hti : str_to_int? s' with
      | none => exact ⟨le_refl 1, hnp⟩
      | some m =>
        dsimp only
        by_cases h1 : m < 1
        · rw [if_pos h1]
          exact ⟨hnp, le_refl _⟩
        · rw [if_neg h1]
          by_cases h2 : (num_pages qs.length per : Int) < m
          · rw [if_pos h2]
            exact ⟨hnp, le_refl _⟩
          · rw [if_neg h2]
            omega
  · intro hs hti hrange
    unfold listViewPaginate
    dsimp only
    rw [if_neg hs, hti]
    dsimp only
    by_cases h1 : n < 1
    · rw [if_pos h1]
    · rw [if_neg h1, if_pos (by omega)]
  · intro hs hlast hti
    unfold listViewPaginate
    dsimp only
    rw [if_neg hs, hti]
    dsimp only
    rw [if_neg hlast]

/-- Claim C2, witness: the helper clamps page "0" of a 5-element queryset
into range, while the ListView pagination used by the listings rejects
page "0", page "7" of an empty queryset, and page "abc". -/
theorem C2_pagination_witness :
    (1 ≤ (paginate_queryset [exPostPub] (some "0") 10).1 ∧
       (paginate_queryset [exPostPub] (some "0") 10).1 ≤
         num_pages [exPostPub].length 10) ∧
    listViewPaginate [exPostPub] 10 (some "0") = PageOutcome.notFound ∧
    listViewPaginate [exPostPub] 10 (some "7") = PageOutcome.notFound ∧
    listViewPaginate [exPostPub] 10 (some "abc") = PageOutcome.notFound := by
  have h := C2_pagination [exPostPub] 10 (some "0") "0" (0 : Int)
  have h7 := C2_pagination [exPostPub] 10 (some "0") "7" (7 : Int)
  have habc := C2_pagination [exPostPub] 10 (some "0") "abc" (0 : Int)
  exact ⟨h.1,
         h.2.1 (by decide) (by decide) (Or.inl (by decide)),
         h7.2.1 (by decide) (by decide) (Or.inr (by decide)),
         habc.2.2 (by decide) (by decide) (by decide)⟩

end Blogicum
